import Mathlib

/-!
Verification development for the NSE proxy server (`src/proxy_server.py`).

The server is a single-process HTTP relay.  Each route handler composes an
upstream HTTPS call (through a cookie-cache layer) with a fallback policy.
We shallowly embed the handler logic: wall-clock time, the outcome of the
cookie-refresh request, and the outcome of the upstream data fetch are passed
as explicit parameters; the per-process hash seed of the Python runtime is an
explicit parameter of the fallback-data generator.  Times are rationals
(standing in for Python floats); machine arithmetic does not overflow in the
modelled ranges.
-/

/-- Modelled from the spec: Python's built-in `hash` on strings (used by the
quote fallback at lines 162-165 of `proxy_server.py`) is not code of this
repository; per the spec it is "a language runtime's default ... hash"
whose "behavior ... is non-deterministic across runs/processes" (hash
randomization keyed by a per-process seed).  We embed it as an explicit
function of the per-run seed and the string: a concrete polynomial mixing
function stands in for SipHash.  Within one run (one seed) it is a fixed
function of the string; across runs the seed differs. -/
def pyHash (seed : Nat) (s : String) : Int :=
  ((s.data.foldl (fun a c => (a * 1000003 + c.toNat) % (2 ^ 61 - 1)) seed : Nat) : Int)

/-- Python `str.upper()` restricted to the ASCII fragment (all symbols in the
claims are ASCII; `Char.toUpper` agrees with Python there). -/
def pyUpper (s : String) : String :=
  String.mk (s.data.map Char.toUpper)

/-- Python `str.replace(".NS", "")`: removes every non-overlapping occurrence
of `".NS"`, scanning left to right (line 147 of `proxy_server.py`). -/
def stripNS : List Char → List Char
  | [] => []
  | '.' :: 'N' :: 'S' :: rest => stripNS rest
  | c :: rest => c :: stripNS rest

/-- Line 147: `symbol = symbol.upper().replace('.NS', '')`. -/
def normalizeSymbol (s : String) : String :=
  String.mk (stripNS (pyUpper s).data)

/-- Cookie-cache state of the handler (lines 25-26): the cookie string and
the `time.time()` value of the last refresh.  Initial values `""` and `0`. -/
structure Session where
  nse_cookies : String
  last_cookie_update : ℚ
deriving DecidableEq

/-- Lines 25-26 of `__init__`. -/
def initSession : Session := ⟨"", 0⟩

/-- Line 27: `cookie_refresh_interval = 300` seconds. -/
def cookie_refresh_interval : ℚ := 300

/-- Line 75: the cookie refresh is attempted iff the cookie string is falsy
(empty) or the cookie is older than the refresh interval (strictly). -/
def needsRefresh (s : Session) (now : ℚ) : Bool :=
  s.nse_cookies == "" || decide (now - s.last_cookie_update > cookie_refresh_interval)

/-- Outcome of the `urlopen` of the upstream root page inside
`get_nse_cookies` (lines 90-94): either the request raises, or it returns a
response carrying a (possibly empty) list of `Set-Cookie` header values. -/
inductive RefreshResult where
  | fail
  | ok (setCookies : List String)
deriving DecidableEq

/-- Line 93: `'; '.join([cookie.split(';')[0] for cookie in set_cookies])`. -/
def joinCookies (cs : List String) : String :=
  String.intercalate "; " (cs.map (fun c => (c.splitOn ";").headD ""))

/-- Lines 72-98, `get_nse_cookies`: when the cookie is missing or stale,
attempt a refresh; on success store the joined cookies and the current time;
the surrounding `try/except` swallows any exception, so on failure the
function returns normally with the state untouched (the two assignments at
lines 93-94 are never reached). -/
def get_nse_cookies (s : Session) (now : ℚ) (r : RefreshResult) : Session :=
  if needsRefresh s now then
    match r with
    | .fail => s
    | .ok cs => ⟨joinCookies cs, now⟩
  else s

/-- Outcome of the upstream data `urlopen` + `json.loads` in
`make_nse_request` (lines 120-134): parsed JSON of shape `α`, an
`urllib.error.HTTPError` with a status code, or any other exception
(timeout, malformed JSON, ...). -/
inductive FetchResult (α : Type) where
  | ok (data : α)
  | httpError (code : Nat)
  | otherError
deriving DecidableEq

/-- The error propagated by `make_nse_request` (it re-raises the original
exception, so the caller can distinguish an `HTTPError` and read its code). -/
inductive NseError where
  | httpError (code : Nat)
  | otherError
deriving DecidableEq

/-- Lines 100-134, `make_nse_request`: first `get_nse_cookies`; then the data
fetch.  On success return the parsed data.  On an `HTTPError` with code 403
or 451 clear the cached cookie string (line 129; the timestamp is not
touched) and re-raise; on any other `HTTPError`, and on any other exception,
re-raise with the state unchanged. -/
def make_nse_request {α : Type} (s : Session) (now : ℚ) (r : RefreshResult)
    (f : FetchResult α) : Session × Except NseError α :=
  let s1 := get_nse_cookies s now r
  match f with
  | .ok d => (s1, .ok d)
  | .httpError c =>
      (if c = 403 ∨ c = 451 then ⟨"", s1.last_cookie_update⟩ else s1,
       .error (.httpError c))
  | .otherError => (s1, .error .otherError)

/-- A line placed in the `BaseHTTPRequestHandler` header buffer.
`send_response(code)` appends a status line (`HTTP/1.1 code reason`) to the
buffer; `send_header` appends a header line; `end_headers` flushes the buffer
followed by the body.  The client parses the FIRST status line of the flushed
bytes as the response status. -/
inductive HeaderLine where
  | status (code : Nat)
  | header (name value : String)
deriving DecidableEq

/-- A flushed HTTP response: the header-buffer lines in order, then a body. -/
structure HttpResponse (β : Type) where
  headerLines : List HeaderLine
  body : β
deriving DecidableEq

/-- Lines 54-60, `send_cors_headers`: `send_response(200)` (a 200 status
line enters the buffer) followed by the four CORS/content-type headers. -/
def send_cors_headers : List HeaderLine :=
  [.status 200,
   .header "Access-Control-Allow-Origin" "*",
   .header "Access-Control-Allow-Methods" "GET, POST, OPTIONS",
   .header "Access-Control-Allow-Headers" "Content-Type, Accept",
   .header "Content-Type" "application/json"]

/-- Lines 62-70, `send_json_response`: emit the CORS block (which begins
with a 200 status line), then, if the requested status is not 200, emit a
second status line — which lands after the CORS headers in the buffer — and
finally the JSON body. -/
def send_json_response {β : Type} (data : β) (status_code : Nat := 200) :
    HttpResponse β :=
  ⟨send_cors_headers ++ (if status_code ≠ 200 then [.status status_code] else []),
   data⟩

/-- The status a client sees: the first status line of the response bytes. -/
def wireStatus {β : Type} (r : HttpResponse β) : Option Nat :=
  r.headerLines.findSome? fun l =>
    match l with
    | .status c => some c
    | .header _ _ => none

/-- The fallback Quote Record synthesized at lines 159-166 when the upstream
quote fetch fails.  `lastPrice` and `pChange` are Python floats (embedded as
rationals; the values involved are small integers and small-denominator
fractions); `change` and `totalTradedVolume` are Python ints.  Python `%`
with a positive divisor agrees with Lean's `Int.emod`. -/
structure QuoteFallback where
  symbol : String
  companyName : String
  lastPrice : ℚ
  change : Int
  pChange : ℚ
  totalTradedVolume : Int
deriving DecidableEq

/-- Lines 159-166: the fallback record for a (normalized) symbol, in the
process run identified by `seed`. -/
def quoteFallbackData (seed : Nat) (symbol : String) : QuoteFallback :=
  { symbol := symbol
    companyName := symbol ++ " Limited"
    lastPrice := 1000 + ((pyHash seed symbol % 1000 : Int) : ℚ)
    change := pyHash seed symbol % 100 - 50
    pChange := (((pyHash seed symbol % 100 - 50 : Int)) : ℚ) / 10
    totalTradedVolume := pyHash seed symbol % 1000000 + 100000 }

/-- Body of a `/api/nse/quote` response: the 400 error body, upstream JSON
passed through unmodified, or the synthesized fallback record. -/
inductive QuoteBody (α : Type) where
  | error (msg : String)
  | upstream (d : α)
  | fallback (q : QuoteFallback)
deriving DecidableEq

/-- Lines 136-167, `handle_stock_quote`.  `symbolParam` is
`parse_qs(...).get('symbol', [None])[0]` (`none` when the parameter is
absent; `parse_qs` drops blank values, but `some ""` is also guarded by
`if not symbol`).  If the parameter is missing, answer 400 without touching
the session or the upstream.  Otherwise normalize the symbol, call
`make_nse_request`, and on success pass the upstream JSON through; on any
exception answer with the synthesized fallback record.  Both data answers
use status 200. -/
def handle_stock_quote {α : Type} (symbolParam : Option String) (seed : Nat)
    (s : Session) (now : ℚ) (r : RefreshResult) (f : FetchResult α) :
    Session × HttpResponse (QuoteBody α) :=
  match symbolParam with
  | none => (s, send_json_response (.error "symbol parameter is required") 400)
  | some sym =>
    if sym = "" then
      (s, send_json_response (.error "symbol parameter is required") 400)
    else
      let symN := normalizeSymbol sym
      let (s1, res) := make_nse_request s now r f
      match res with
      | .ok d => (s1, send_json_response (.upstream d))
      | .error _ =>
          (s1, send_json_response (.fallback (quoteFallbackData seed symN)))

/-- One item of an upstream index listing (`data` array element), with the
optional fields the handlers read.  `metaCompanyName` is
`item.get('meta', {}).get('companyName')`. -/
structure StockItem where
  symbol : Option String
  companyName : Option String
  lastPrice : Option ℚ
  change : Option ℚ
  pChange : Option ℚ
  totalTradedVolume : Option ℚ
  metaCompanyName : Option String
deriving DecidableEq

/-- Lines 187-192: the hardcoded fallback symbol list. -/
def fallbackSymbols : List String :=
  ["RELIANCE", "TCS", "HDFCBANK", "INFY", "HINDUNILVR", "ICICIBANK", "KOTAKBANK",
   "BHARTIARTL", "ITC", "SBIN", "LT", "ASIANPAINT", "AXISBANK", "MARUTI", "BAJFINANCE",
   "HCLTECH", "DMART", "SUNPHARMA", "TITAN", "ULTRACEMCO", "NESTLEIND", "WIPRO",
   "ADANIENT", "JSWSTEEL", "POWERGRID", "TATAMOTORS", "NTPC", "COALINDIA", "ONGC"]

/-- Body of a `/api/nse/symbols` response: `{"symbols": [...]}`. -/
inductive SymbolsBody where
  | symbols (l : List String)
deriving DecidableEq

/-- Lines 169-193, `handle_symbols`: on success with the expected shape,
extract the `symbol` field of each item that has one and truncate to 500;
on shape mismatch or any exception answer the hardcoded list.  Always 200. -/
def handle_symbols (s : Session) (now : ℚ) (r : RefreshResult)
    (f : FetchResult (Option (List StockItem))) : Session × HttpResponse SymbolsBody :=
  let (s1, res) := make_nse_request s now r f
  match res with
  | .ok (some items) =>
      (s1, send_json_response (.symbols ((items.filterMap (·.symbol)).take 500)))
  | .ok none => (s1, send_json_response (.symbols fallbackSymbols))
  | .error _ => (s1, send_json_response (.symbols fallbackSymbols))

/-- Wall-clock minutes since the Unix epoch (1970-01-01 00:00, a Thursday),
the granularity `handle_market_status` reads (`.weekday()`, `.hour`). -/
def istNow (nowMin : Nat) : Nat :=
  nowMin + 330

/-- `datetime.weekday()` of an epoch-minute instant: 0 = Monday ... 6 =
Sunday; the epoch day was a Thursday (index 3). -/
def weekdayOf (m : Nat) : Nat :=
  (m / 1440 + 3) % 7

/-- `.hour` of an epoch-minute instant. -/
def hourOf (m : Nat) : Nat :=
  m % 1440 / 60

/-- Minutes past midnight of an epoch-minute instant. -/
def minutesIntoDay (m : Nat) : Nat :=
  m % 1440

/-- Lines 209-215: `ist_now = now + timedelta(hours=5, minutes=30)`;
`is_market_hours = 0 <= day <= 4 and 9 <= hour < 16` on the shifted time. -/
def is_market_hours (nowMin : Nat) : Bool :=
  decide (weekdayOf (istNow nowMin) ≤ 4) &&
  decide (9 ≤ hourOf (istNow nowMin)) && decide (hourOf (istNow nowMin) < 16)

/-- The single element of the fallback `marketState` list (lines 217-224).
`tradeDateDays` stands for the `strftime("%Y-%m-%d")` of the shifted time:
we record the day count, which determines the printed date. -/
structure MarketStatusRecord where
  market : String
  marketStatus : String
  tradeDateDays : Nat
  index : String
deriving DecidableEq

/-- Lines 209-224: the synthesized fallback market-status record. -/
def marketStatusFallback (nowMin : Nat) : MarketStatusRecord :=
  { market := "Capital Market"
    marketStatus := if is_market_hours nowMin then "Open" else "Closed"
    tradeDateDays := istNow nowMin / 1440
    index := "NIFTY 50" }

/-- Body of a `/api/nse/market-status` response: upstream JSON passed
through, or `{"marketState": [fallback record]}`. -/
inductive MarketBody (α : Type) where
  | upstream (d : α)
  | fallback (rec : MarketStatusRecord)
deriving DecidableEq

/-- Lines 195-225, `handle_market_status`: pass the upstream JSON through on
success; on any exception synthesize the fallback from the current wall
clock (`nowMin`, the `datetime.datetime.now()` instant in epoch minutes).
Always status 200. -/
def handle_market_status {α : Type} (s : Session) (now : ℚ) (r : RefreshResult)
    (f : FetchResult α) (nowMin : Nat) : Session × HttpResponse (MarketBody α) :=
  let (s1, res) := make_nse_request s now r f
  match res with
  | .ok d => (s1, send_json_response (.upstream d))
  | .error _ => (s1, send_json_response (.fallback (marketStatusFallback nowMin)))

/-- One reshaped element of the `/api/nse/top-stocks` answer
(lines 238-246), with the `item.get(..., default)` defaults applied. -/
structure TopStock where
  symbol : String
  name : String
  price : ℚ
  change : ℚ
  changePercent : ℚ
  volume : ℚ
  marketCap : String
deriving DecidableEq

/-- Lines 238-246: per-item reshape with defaults
(`name` defaults to `item.get('symbol', '')`, `marketCap` to `"N/A"`). -/
def reshapeTopStock (it : StockItem) : TopStock :=
  { symbol := it.symbol.getD ""
    name := it.companyName.getD (it.symbol.getD "")
    price := it.lastPrice.getD 0
    change := it.change.getD 0
    changePercent := it.pChange.getD 0
    volume := it.totalTradedVolume.getD 0
    marketCap := it.metaCompanyName.getD "N/A" }

/-- Body of a `/api/nse/top-stocks` response: `{"stocks": [...]}`. -/
inductive TopStocksBody where
  | stocks (l : List TopStock)
deriving DecidableEq

/-- Lines 227-255, `handle_top_stocks`: on success with the expected shape,
reshape the first 20 items; on shape mismatch (the raised exception is
caught by the same `except`) or any other exception answer `{"stocks": []}`.
Always status 200. -/
def handle_top_stocks (s : Session) (now : ℚ) (r : RefreshResult)
    (f : FetchResult (Option (List StockItem))) : Session × HttpResponse TopStocksBody :=
  let (s1, res) := make_nse_request s now r f
  match res with
  | .ok (some items) =>
      (s1, send_json_response (.stocks ((items.take 20).map reshapeTopStock)))
  | .ok none => (s1, send_json_response (.stocks []))
  | .error _ => (s1, send_json_response (.stocks []))

/-- The `/api/health` body (lines 259-264).  `cookiesLastUpdated` is the
formatted last-refresh time or JSON null; we record the raw timestamp whose
formatting is printed (`none` = null, produced when `last_cookie_update` is
falsy, i.e. zero). -/
structure HealthStatus where
  status : String
  cookiesLastUpdated : Option ℚ
  cookiesValid : Bool
deriving DecidableEq

/-- Lines 257-265, `handle_health`:
`cookiesValid = bool(nse_cookies and time.time() - last_cookie_update < 300)`;
`cookiesLastUpdated` is null exactly when `last_cookie_update` is zero. -/
def handle_health (s : Session) (now : ℚ) : HealthStatus :=
  { status := "ok"
    cookiesLastUpdated :=
      if s.last_cookie_update ≠ 0 then some s.last_cookie_update else none
    cookiesValid :=
      (s.nse_cookies != "") &&
      decide (now - s.last_cookie_update < cookie_refresh_interval) }

/-- The market-open condition exactly as the specification words it for the
fallback ("Mon-Fri, local-equivalent 09:15-16:00 in a fixed UTC offset"),
for comparison with `is_market_hours`: weekday Monday-Friday and the shifted
clock at or after 09:15 (minute 555) and before 16:00 (minute 960). -/
def claimMarketOpen (nowMin : Nat) : Bool :=
  decide (weekdayOf (istNow nowMin) ≤ 4) &&
  decide (555 ≤ minutesIntoDay (istNow nowMin)) &&
  decide (minutesIntoDay (istNow nowMin) < 960)

/-! ## Theorems -/

/-- Claim C6: when the upstream data fetch answers HTTP 403 or 451, the
request layer clears the cached cookie string (leaving the timestamp alone)
and propagates the error still carrying the status code (so the caller can
distinguish an authentication rejection); on any other HTTP error status the
cached cookie is left as `get_nse_cookies` produced it and the error is
still propagated. -/
theorem C6_auth_error_invalidates_cookie {α : Type} (s : Session) (now : ℚ)
    (r : RefreshResult) (c : Nat) :
    (make_nse_request (α := α) s now r (.httpError c)).2 = .error (.httpError c) ∧
    (make_nse_request (α := α) s now r (.httpError c)).1.nse_cookies =
      (if c = 403 ∨ c = 451 then "" else (get_nse_cookies s now r).nse_cookies) ∧
    (make_nse_request (α := α) s now r (.httpError c)).1.last_cookie_update =
      (get_nse_cookies s now r).last_cookie_update := by
  refine ⟨rfl, ?_, ?_⟩ <;>
    by_cases hc : c = 403 ∨ c = 451 <;>
      simp [make_nse_request, hc]

/-- Claim C7: if the session-cookie refresh request fails, `get_nse_cookies`
returns normally (the embedding is a total function; in the source the
`except` block swallows the exception) and leaves the cookie string and the
last-refresh timestamp exactly as they were. -/
theorem C7_refresh_failure_leaves_state (s : Session) (now : ℚ) :
    get_nse_cookies s now .fail = s := by
  unfold get_nse_cookies
  split <;> rfl

/-- Claim C8: the health endpoint's `cookiesValid` flag is true exactly when
the cookie string is non-empty and `now - last_cookie_update < 300`
(strictly); in the initial state (no refresh yet) it reports `cookiesValid =
false` and a null `cookiesLastUpdated`; and once 300 seconds have elapsed
since the last refresh it reports `cookiesValid = false` with no state
change other than time advancing. -/
theorem C8_health_cookie_validity (s : Session) (now : ℚ) :
    ((handle_health s now).cookiesValid = true ↔
      (s.nse_cookies ≠ "" ∧ now - s.last_cookie_update < 300)) ∧
    (handle_health initSession now).cookiesValid = false ∧
    (handle_health initSession now).cookiesLastUpdated = none ∧
    (300 ≤ now - s.last_cookie_update →
      (handle_health s now).cookiesValid = false) := by
  refine ⟨?_, ?_, ?_, ?_⟩
  · simp [handle_health, cookie_refresh_interval]
  · simp [handle_health, initSession]
  · simp [handle_health, initSession]
  · intro h
    simp only [handle_health, cookie_refresh_interval, Bool.and_eq_false_iff]
    right
    simpa using not_lt.mpr h

/-- Witness for C8: at time 400 with a non-empty cookie refreshed at time 0,
300 seconds have elapsed and the flag is false. -/
theorem C8_health_cookie_validity_witness :
    (300 : ℚ) ≤ 400 - (Session.mk "c" 0).last_cookie_update ∧
    (handle_health (Session.mk "c" 0) 400).cookiesValid = false :=
  ⟨by norm_num, (C8_health_cookie_validity (Session.mk "c" 0) 400).2.2.2 (by norm_num)⟩

/-- Claim C10: if the refresh request succeeds but carries zero `Set-Cookie`
headers, the cookie string becomes the empty string while the last-refresh
timestamp is nonetheless set to the current time; the empty cookie is
treated as unpopulated, so every subsequent request attempts a refresh
regardless of the TTL, and the health endpoint reports `cookiesValid =
false` despite the recent timestamp. -/
theorem C10_empty_set_cookie_headers (s : Session) (now t : ℚ)
    (h : needsRefresh s now = true) :
    (get_nse_cookies s now (.ok [])).nse_cookies = "" ∧
    (get_nse_cookies s now (.ok [])).last_cookie_update = now ∧
    needsRefresh (get_nse_cookies s now (.ok [])) t = true ∧
    (handle_health (get_nse_cookies s now (.ok [])) t).cookiesValid = false := by
  have hj : joinCookies [] = "" := by decide
  have hs : get_nse_cookies s now (.ok []) = ⟨"", now⟩ := by
    unfold get_nse_cookies
    rw [if_pos h]
    show Session.mk (joinCookies []) now = Session.mk "" now
    rw [hj]
  rw [hs]
  refine ⟨rfl, rfl, ?_, ?_⟩
  · simp [needsRefresh]
  · simp [handle_health]

/-- Witness for C10: the initial state at time 0 needs a refresh; an empty
`Set-Cookie` list leaves an empty cookie with timestamp 0, still needing
refresh and still invalid at time 0. -/
theorem C10_empty_set_cookie_headers_witness :
    needsRefresh initSession 0 = true ∧
    ((get_nse_cookies initSession 0 (.ok [])).nse_cookies = "" ∧
     (get_nse_cookies initSession 0 (.ok [])).last_cookie_update = 0 ∧
     needsRefresh (get_nse_cookies initSession 0 (.ok [])) 0 = true ∧
     (handle_health (get_nse_cookies initSession 0 (.ok [])) 0).cookiesValid = false) :=
  ⟨by decide, C10_empty_set_cookie_headers initSession 0 0 (by decide)⟩

/-- The code's market-hours test, unfolded to minute arithmetic: weekday at
most Friday and minute-of-day in `[540, 960)` (09:00-16:00). -/
theorem is_market_hours_iff (nowMin : Nat) :
    is_market_hours nowMin = true ↔
      (weekdayOf (istNow nowMin) ≤ 4 ∧ 540 ≤ minutesIntoDay (istNow nowMin) ∧
       minutesIntoDay (istNow nowMin) < 960) := by
  simp only [is_market_hours, hourOf, minutesIntoDay, Bool.and_eq_true,
    decide_eq_true_eq]
  constructor
  · rintro ⟨⟨h1, h2⟩, h3⟩
    exact ⟨h1, by omega, by omega⟩
  · rintro ⟨h1, h2, h3⟩
    exact ⟨⟨h1, by omega⟩, by omega⟩

/-- Claim C5 (counterexample): at the instant whose UTC+5:30 shift is
Wednesday 09:05 (epoch minute 8855; 1970-01-07 was a Wednesday), the
fallback reports "Open", while the claim's rule (open only from 09:15)
says closed. -/
theorem C5_counterexample_wed_0905 :
    (marketStatusFallback 8855).marketStatus = "Open" ∧
    claimMarketOpen 8855 = false ∧
    weekdayOf (istNow 8855) = 2 ∧
    hourOf (istNow 8855) = 9 ∧
    minutesIntoDay (istNow 8855) = 545 := by
  refine ⟨?_, by decide, by decide, by decide, by decide⟩
  decide

/-- Claim C5 (amended): the fallback Market Status Record reports "Open"
exactly when the current time, expressed in the fixed UTC+5:30 offset,
falls on Monday through Friday with the hour in `[9, 16)` — that is,
between 09:00 (not 09:15) and 16:00; in particular it is Open for Wednesday
10:00, Closed for Saturday 10:00, and Closed for Wednesday 20:00. -/
theorem C5_market_status_fallback_rule (nowMin : Nat) :
    ((marketStatusFallback nowMin).marketStatus = "Open" ↔
      (weekdayOf (istNow nowMin) ≤ 4 ∧ 540 ≤ minutesIntoDay (istNow nowMin) ∧
       minutesIntoDay (istNow nowMin) < 960)) ∧
    (marketStatusFallback 8910).marketStatus = "Open" ∧
    (marketStatusFallback 3150).marketStatus = "Closed" ∧
    (marketStatusFallback 9510).marketStatus = "Closed" := by
  refine ⟨?_, by decide, by decide, by decide⟩
  rw [← is_market_hours_iff]
  have hms : (marketStatusFallback nowMin).marketStatus =
      (if is_market_hours nowMin then "Open" else "Closed") := rfl
  rw [hms]
  cases hb : is_market_hours nowMin
  · simp [hb]
  · simp [hb]

/-- Concrete residues of the modelled hash of "RELIANCE" in the run with
seed 0. -/
theorem pyHash_reliance_seed0 :
    pyHash 0 "RELIANCE" % 1000 = 20 ∧ pyHash 0 "RELIANCE" % 100 = 20 ∧
    pyHash 0 "RELIANCE" % 1000000 = 970020 := by
  refine ⟨by decide, by decide, by decide⟩

/-- Concrete residues of the modelled hash of "RELIANCE" in the run with
seed 1. -/
theorem pyHash_reliance_seed1 :
    pyHash 1 "RELIANCE" % 1000 = 99 ∧ pyHash 1 "RELIANCE" % 100 = 99 ∧
    pyHash 1 "RELIANCE" % 1000000 = 353099 := by
  refine ⟨by decide, by decide, by decide⟩

/-- Claim C1: with upstream failing, the quote handler does answer status
200 with a fallback record echoing the normalized symbol, and the answer is
a pure function of the symbol within one process run — but the numeric
fields are NOT identical across distinct process runs: the run with hash
seed 0 and the run with hash seed 1 give different `lastPrice` (and
`totalTradedVolume`) for the same symbol "RELIANCE". -/
theorem C1_fallback_differs_across_runs :
    (handle_stock_quote (α := Unit) (some "RELIANCE") 0 initSession 0 .fail
        .otherError).2.body = .fallback (quoteFallbackData 0 "RELIANCE") ∧
    (handle_stock_quote (α := Unit) (some "RELIANCE") 1 initSession 0 .fail
        .otherError).2.body = .fallback (quoteFallbackData 1 "RELIANCE") ∧
    wireStatus (handle_stock_quote (α := Unit) (some "RELIANCE") 0 initSession 0
        .fail .otherError).2 = some 200 ∧
    (quoteFallbackData 0 "RELIANCE").symbol = "RELIANCE" ∧
    (quoteFallbackData 1 "RELIANCE").symbol = "RELIANCE" ∧
    (quoteFallbackData 0 "RELIANCE").lastPrice ≠
      (quoteFallbackData 1 "RELIANCE").lastPrice ∧
    (quoteFallbackData 0 "RELIANCE").totalTradedVolume ≠
      (quoteFallbackData 1 "RELIANCE").totalTradedVolume := by
  have hn : normalizeSymbol "RELIANCE" = "RELIANCE" := by decide
  refine ⟨?_, ?_, by decide, rfl, rfl, ?_, ?_⟩
  · show QuoteBody.fallback (quoteFallbackData 0 (normalizeSymbol "RELIANCE")) =
      QuoteBody.fallback (quoteFallbackData 0 "RELIANCE")
    rw [hn]
  · show QuoteBody.fallback (quoteFallbackData 1 (normalizeSymbol "RELIANCE")) =
      QuoteBody.fallback (quoteFallbackData 1 "RELIANCE")
    rw [hn]
  · show 1000 + ((pyHash 0 "RELIANCE" % 1000 : Int) : ℚ) ≠
      1000 + ((pyHash 1 "RELIANCE" % 1000 : Int) : ℚ)
    rw [pyHash_reliance_seed0.1, pyHash_reliance_seed1.1]
    norm_num
  · show pyHash 0 "RELIANCE" % 1000000 + 100000 ≠
      pyHash 1 "RELIANCE" % 1000000 + 100000
    rw [pyHash_reliance_seed0.2.2, pyHash_reliance_seed1.2.2]
    norm_num

/-- Claim C3 (counterexample): there is no single stable hash value `H` that
reproduces the code's fallback fields for "RELIANCE" across two process
runs (hash seeds 0 and 1): the four formulas of the claim cannot all hold
for both runs with one `H`. -/
theorem C3_no_single_stable_hash :
    ¬ ∃ H : Int,
      ((quoteFallbackData 0 "RELIANCE").lastPrice = 1000 + ((H % 1000 : Int) : ℚ) ∧
       (quoteFallbackData 0 "RELIANCE").change = H % 100 - 50 ∧
       (quoteFallbackData 0 "RELIANCE").pChange = ((H % 100 - 50 : Int) : ℚ) / 10 ∧
       (quoteFallbackData 0 "RELIANCE").totalTradedVolume = H % 1000000 + 100000) ∧
      ((quoteFallbackData 1 "RELIANCE").lastPrice = 1000 + ((H % 1000 : Int) : ℚ) ∧
       (quoteFallbackData 1 "RELIANCE").change = H % 100 - 50 ∧
       (quoteFallbackData 1 "RELIANCE").pChange = ((H % 100 - 50 : Int) : ℚ) / 10 ∧
       (quoteFallbackData 1 "RELIANCE").totalTradedVolume = H % 1000000 + 100000) := by
  rintro ⟨H, ⟨-, -, -, hv0⟩, ⟨-, -, -, hv1⟩⟩
  have h0 : pyHash 0 "RELIANCE" % 1000000 + 100000 = H % 1000000 + 100000 := hv0
  have h1 : pyHash 1 "RELIANCE" % 1000000 + 100000 = H % 1000000 + 100000 := hv1
  rw [pyHash_reliance_seed0.2.2] at h0
  rw [pyHash_reliance_seed1.2.2] at h1
  omega

/-- Claim C3 (amended): in each process run (hash seed), the quote fallback
record satisfies exactly `lastPrice = 1000 + (H mod 1000)`,
`change = (H mod 100) - 50`, `pChange = change / 10` and
`totalTradedVolume = (H mod 1,000,000) + 100,000`, where `H` is the run's
single numeric hash of the symbol, used consistently for all four fields
(stable within the run, not across runs). -/
theorem C3_fallback_formulas (seed : Nat) (S : String) :
    (quoteFallbackData seed S).lastPrice =
      1000 + ((pyHash seed S % 1000 : Int) : ℚ) ∧
    (quoteFallbackData seed S).change = pyHash seed S % 100 - 50 ∧
    (quoteFallbackData seed S).pChange =
      (((quoteFallbackData seed S).change : Int) : ℚ) / 10 ∧
    (quoteFallbackData seed S).totalTradedVolume =
      pyHash seed S % 1000000 + 100000 :=
  ⟨rfl, rfl, rfl, rfl⟩

/-- Claim C4: a quote request with no `symbol` parameter produces the body
`{"error": "symbol parameter is required"}` without touching the session or
consulting the upstream (the response is the same for every refresh/fetch
outcome) — but the header buffer is `send_cors_headers` (which begins with
a 200 status line) followed by the 400 status line, so the status line a
client parses is 200, not the intended 400. -/
theorem C4_missing_symbol_status_line :
    (handle_stock_quote (α := Unit) none 0 initSession 0 .fail
        .otherError).2.body = .error "symbol parameter is required" ∧
    (handle_stock_quote (α := Unit) none 0 initSession 0 .fail
        .otherError).2.headerLines = send_cors_headers ++ [.status 400] ∧
    wireStatus (handle_stock_quote (α := Unit) none 0 initSession 0 .fail
        .otherError).2 = some 200 ∧
    (handle_stock_quote (α := Unit) none 0 initSession 0 .fail
        .otherError).1 = initSession ∧
    (∀ (r : RefreshResult) (f : FetchResult Unit),
      handle_stock_quote none 0 initSession 0 r f =
        handle_stock_quote (α := Unit) none 0 initSession 0 .fail .otherError) := by
  refine ⟨rfl, by decide, by decide, rfl, ?_⟩
  intro r f
  rfl

/-- Claim C9: the quote handler normalizes the symbol by upper-casing and
then removing EVERY occurrence of the substring ".NS", not only a trailing
suffix: on input "A.NSB" (whose upper-case form does not end with ".NS")
the code produces "AB", and that is the symbol echoed in the fallback
record, contradicting the source's own comment "Remove .NS suffix if
present". -/
theorem C9_replace_removes_all_occurrences :
    normalizeSymbol "A.NSB" = "AB" ∧
    pyUpper "A.NSB" = "A.NSB" ∧
    (List.isSuffixOf ".NS".data (pyUpper "A.NSB").data) = false ∧
    (handle_stock_quote (α := Unit) (some "A.NSB") 0 initSession 0 .fail
        .otherError).2.body = .fallback (quoteFallbackData 0 "AB") := by
  refine ⟨by decide, by decide, by decide, ?_⟩
  show QuoteBody.fallback (quoteFallbackData 0 (normalizeSymbol "A.NSB")) =
    QuoteBody.fallback (quoteFallbackData 0 "AB")
  rw [show normalizeSymbol "A.NSB" = "AB" from by decide]

/-- Every response written through `send_json_response` has first status
line 200 (the CORS block opens the header buffer with a 200 status line). -/
theorem wireStatus_send_json_response {β : Type} (d : β) (c : Nat) :
    wireStatus (send_json_response d c) = some 200 := rfl

/-- Claim C2: for every route handler (quote, symbols, market-status,
top-stocks): the answer's status is 200 for every upstream outcome, and on
every Upstream Client error or response-shape mismatch the body is the
handler's fallback data — an upstream failure is never surfaced as an HTTP
5xx response. -/
theorem C2_handlers_absorb_upstream_failures {α : Type} (seed : Nat)
    (s : Session) (now : ℚ) (r : RefreshResult) (f : FetchResult α)
    (g : FetchResult (Option (List StockItem))) (nowMin : Nat) (sym : String)
    (hsym : sym ≠ "") :
    wireStatus (handle_stock_quote (some sym) seed s now r f).2 = some 200 ∧
    ((∀ d, f ≠ .ok d) → (handle_stock_quote (some sym) seed s now r f).2.body =
      .fallback (quoteFallbackData seed (normalizeSymbol sym))) ∧
    wireStatus (handle_symbols s now r g).2 = some 200 ∧
    ((∀ items, g ≠ .ok (some items)) → (handle_symbols s now r g).2.body =
      .symbols fallbackSymbols) ∧
    wireStatus (handle_market_status s now r f nowMin).2 = some 200 ∧
    ((∀ d, f ≠ .ok d) → (handle_market_status s now r f nowMin).2.body =
      .fallback (marketStatusFallback nowMin)) ∧
    wireStatus (handle_top_stocks s now r g).2 = some 200 ∧
    ((∀ items, g ≠ .ok (some items)) → (handle_top_stocks s now r g).2.body =
      .stocks []) := by
  refine ⟨?_, ?_, ?_, ?_, ?_, ?_, ?_, ?_⟩
  · rcases f with d | c | _ <;>
      simp [handle_stock_quote, make_nse_request, hsym, wireStatus_send_json_response]
  · intro hf
    rcases f with d | c | _
    · exact absurd rfl (hf d)
    · simp [handle_stock_quote, make_nse_request, hsym, send_json_response]
    · simp [handle_stock_quote, make_nse_request, hsym, send_json_response]
  · rcases g with d | c | _
    · rcases d with _ | items <;>
        simp [handle_symbols, make_nse_request, wireStatus_send_json_response]
    · simp [handle_symbols, make_nse_request, wireStatus_send_json_response]
    · simp [handle_symbols, make_nse_request, wireStatus_send_json_response]
  · intro hg
    rcases g with d | c | _
    · rcases d with _ | items
      · simp [handle_symbols, make_nse_request, send_json_response]
      · exact absurd rfl (hg items)
    · simp [handle_symbols, make_nse_request, send_json_response]
    · simp [handle_symbols, make_nse_request, send_json_response]
  · rcases f with d | c | _ <;>
      simp [handle_market_status, make_nse_request, wireStatus_send_json_response]
  · intro hf
    rcases f with d | c | _
    · exact absurd rfl (hf d)
    · simp [handle_market_status, make_nse_request, send_json_response]
    · simp [handle_market_status, make_nse_request, send_json_response]
  · rcases g with d | c | _
    · rcases d with _ | items <;>
        simp [handle_top_stocks, make_nse_request, wireStatus_send_json_response]
    · simp [handle_top_stocks, make_nse_request, wireStatus_send_json_response]
    · simp [handle_top_stocks, make_nse_request, wireStatus_send_json_response]
  · intro hg
    rcases g with d | c | _
    · rcases d with _ | items
      · simp [handle_top_stocks, make_nse_request, send_json_response]
      · exact absurd rfl (hg items)
    · simp [handle_top_stocks, make_nse_request, send_json_response]
    · simp [handle_top_stocks, make_nse_request, send_json_response]

/-- Witness for C2: with symbol "TCS" and every upstream interaction
failing, all four handlers answer status 200 with their fallback bodies. -/
theorem C2_handlers_absorb_upstream_failures_witness :
    "TCS" ≠ "" ∧
    (wireStatus (handle_stock_quote (α := Unit) (some "TCS") 0 initSession 0
        .fail .otherError).2 = some 200 ∧
     (handle_stock_quote (α := Unit) (some "TCS") 0 initSession 0 .fail
        .otherError).2.body = .fallback (quoteFallbackData 0 (normalizeSymbol "TCS")) ∧
     wireStatus (handle_symbols initSession 0 .fail .otherError).2 = some 200 ∧
     (handle_symbols initSession 0 .fail .otherError).2.body =
       .symbols fallbackSymbols ∧
     wireStatus (handle_market_status (α := Unit) initSession 0 .fail
        .otherError 0).2 = some 200 ∧
     (handle_market_status (α := Unit) initSession 0 .fail .otherError 0).2.body =
       .fallback (marketStatusFallback 0) ∧
     wireStatus (handle_top_stocks initSession 0 .fail .otherError).2 = some 200 ∧
     (handle_top_stocks initSession 0 .fail .otherError).2.body = .stocks []) := by
  have h := C2_handlers_absorb_upstream_failures (α := Unit) 0 initSession 0 .fail
    .otherError .otherError 0 "TCS" (by decide)
  have hno : ∀ d : Unit, (FetchResult.otherError : FetchResult Unit) ≠ .ok d := by
    intro d hd
    cases hd
  have hno2 : ∀ items : List StockItem,
      (FetchResult.otherError : FetchResult (Option (List StockItem))) ≠
        .ok (some items) := by
    intro items hd
    cases hd
  exact ⟨by decide, h.1, h.2.1 hno, h.2.2.1, h.2.2.2.1 hno2, h.2.2.2.2.1,
    h.2.2.2.2.2.1 hno, h.2.2.2.2.2.2.1, h.2.2.2.2.2.2.2 hno2⟩
